import Mathlib

/-!
Verification of the homework-status Telegram bot (src/homework.py) against
its natural-language specification. The Python module is shallowly embedded:
JSON/Python values become the inductive `PyVal`, exceptions become the
`PyError` sum carried in `Except`, and the side effects of one iteration of
the `main` polling loop (log lines, bot sends, the sleep) are recorded as an
explicit event list. CPython object identity — the source deduplicates with
`message is not previous_message` — is modelled by tagging each string
object with an allocation id (`PyStr`); every string built by an iteration
is a fresh object, exactly as an f-string result is in CPython.
-/

/-- A Python/JSON value as the bot manipulates it: `None`, `int`, `str`,
`list`, `dict` (string keys, as JSON object keys always are). -/
inductive PyVal where
  | none : PyVal
  | int : Int → PyVal
  | str : String → PyVal
  | list : List PyVal → PyVal
  | dict : List (String × PyVal) → PyVal

/-- The exception classes the source raises or catches, with their message. -/
inductive PyError where
  | typeError : String → PyError
  | keyError : String → PyError
  | valueError : String → PyError
  | connectionError : String → PyError
  | attributeError : String → PyError
deriving DecidableEq

/-- Python `k in d` for a dict: key containment. -/
def pyDictHasKey (d : List (String × PyVal)) (k : String) : Bool :=
  (d.find? (fun p => p.1 == k)).isSome

/-- Python `d.get(k)`: the stored value, `None` when the key is absent. -/
def pyDictGet (d : List (String × PyVal)) (k : String) : PyVal :=
  ((d.find? (fun p => p.1 == k)).map Prod.snd).getD PyVal.none

/-- `isinstance(v, dict)`. -/
def isDictV : PyVal → Bool
  | PyVal.dict _ => true
  | _ => false

/-- `isinstance(v, list)`. -/
def isListV : PyVal → Bool
  | PyVal.list _ => true
  | _ => false

/-- `isinstance(v, int)`. -/
def isIntV : PyVal → Bool
  | PyVal.int _ => true
  | _ => false

/-- `v is None`. -/
def isNoneV : PyVal → Bool
  | PyVal.none => true
  | _ => false

/-- Python truthiness (`if homeworks:`): `None` and empty containers are
falsy, a nonzero int and a nonempty string/list/dict are truthy. -/
def pyTruthy : PyVal → Bool
  | PyVal.none => false
  | PyVal.int i => i != 0
  | PyVal.str s => s != ""
  | PyVal.list l => !l.isEmpty
  | PyVal.dict d => !d.isEmpty

/-- `homeworks[0]`. In `main` this is only evaluated after the truthiness
guard, so the fallback arm is unreachable there (Python would raise). -/
def pyIndex0 : PyVal → PyVal
  | PyVal.list (x :: _) => x
  | _ => PyVal.none

/-- `response.get(k)` on an arbitrary value; in `main` the receiver is
already known to be a dict when this is evaluated. -/
def pyGet (v : PyVal) (k : String) : PyVal :=
  match v with
  | PyVal.dict d => pyDictGet d k
  | _ => PyVal.none

mutual

/-- Python `repr`, to the extent the bot can observe it (plain strings are
rendered between single quotes; escape sequences inside them are not
reproduced, which no reachable string of this program contains). -/
def pyRepr : PyVal → String
  | PyVal.none => "None"
  | PyVal.int i => toString i
  | PyVal.str s => "'" ++ s ++ "'"
  | PyVal.list l => "[" ++ String.intercalate ", " (pyReprItems l) ++ "]"
  | PyVal.dict d => "\x7b" ++ String.intercalate ", " (pyReprPairs d) ++ "\x7d"

/-- `repr` of each element of a list. -/
def pyReprItems : List PyVal → List String
  | [] => []
  | x :: xs => pyRepr x :: pyReprItems xs

/-- `repr` of each `key: value` pair of a dict. -/
def pyReprPairs : List (String × PyVal) → List String
  | [] => []
  | (k, v) :: xs => ("'" ++ k ++ "': " ++ pyRepr v) :: pyReprPairs xs

end

/-- Python `str(v)`: a string unchanged, anything else via `repr`
(f-string interpolation calls this). -/
def pyStr (v : PyVal) : String :=
  match v with
  | PyVal.str s => s
  | w => pyRepr w

/-- Python `str(e)` for the exceptions the loop formats into its diagnostic:
`KeyError.__str__` is the `repr` of its argument (hence the surrounding
single quotes); the other classes print their message verbatim. -/
def errStr : PyError → String
  | PyError.typeError m => m
  | PyError.keyError m => "'" ++ m ++ "'"
  | PyError.valueError m => m
  | PyError.connectionError m => m
  | PyError.attributeError m => m

/-- Module constant `RETRY_PERIOD` (seconds slept between iterations). -/
def RETRY_PERIOD : Nat := 600

/-- Module constant `ENDPOINT`. -/
def ENDPOINT : String := "https://practicum.yandex.ru/api/user_api/homework_statuses/"

/-- Module constant `HOMEWORK_VERDICTS`: verdict code to human-readable text. -/
def HOMEWORK_VERDICTS : List (String × String) :=
  [("approved", "Работа проверена: ревьюеру всё понравилось. Ура!"),
   ("reviewing", "Работа взята на проверку ревьюером."),
   ("rejected", "Работа проверена: у ревьюера есть замечания.")]

/-- `homework.get('status') not in HOMEWORK_VERDICTS`, negated: a value is
in the verdict table iff it is a string equal to one of its keys (Python
`in` on a dict checks keys; a non-string never equals a string key). -/
def statusKnown (v : PyVal) : Bool :=
  match v with
  | PyVal.str st => (HOMEWORK_VERDICTS.find? (fun p => p.1 == st)).isSome
  | _ => false

/-- `HOMEWORK_VERDICTS[v]`; in `parse_status` it is only evaluated after
`statusKnown v` held, so the fallback is unreachable there. -/
def verdictText (v : PyVal) : String :=
  match v with
  | PyVal.str st => ((HOMEWORK_VERDICTS.find? (fun p => p.1 == st)).map Prod.snd).getD ""
  | _ => ""

/-- `needle in s` for Python strings: substring containment (both needles
used by the source are nonempty, for which `splitOn` counts occurrences). -/
def strContains (s pat : String) : Bool :=
  (s.splitOn pat).length != 1

/-- `'homework_name' in l` for a Python list: membership via `==`; of the
values of this model only an equal string compares equal to a string. -/
def pyListHasStr (l : List PyVal) (s : String) : Bool :=
  l.any (fun v => match v with | PyVal.str t => t == s | _ => false)

/-- `check_response(response)` (src/homework.py lines 73-94): validates the
API answer, raising the first applicable error, and returns
`response.get('homeworks')` on success. -/
def check_response (response : PyVal) : Except PyError PyVal :=
  match response with
  | PyVal.dict d =>
    if pyDictHasKey d "homeworks" = false then
      Except.error (PyError.keyError "The \"homework\" key not found")
    else if isListV (pyDictGet d "homeworks") = false then
      Except.error (PyError.typeError "The data must be of the list type")
    else if pyDictHasKey d "current_date" = false then
      Except.error (PyError.keyError "The \"current_date\" key not found")
    else if isNoneV (pyDictGet d "current_date") = true then
      Except.error (PyError.valueError "The \"current_date\" value not found")
    else if isIntV (pyDictGet d "current_date") = false then
      Except.error (PyError.typeError "The data must be of the int type")
    else Except.ok (pyDictGet d "homeworks")
  | _ => Except.error (PyError.typeError "The data must be of the dict type")

/-- `parse_status(homework)` (src/homework.py lines 97-115). The source does
not require a dict: `in` works on strings and lists too, after which
`.get` raises `AttributeError`; a non-iterable raises `TypeError` at the
first `in`. All arms mirror that. -/
def parse_status (homework : PyVal) : Except PyError String :=
  match homework with
  | PyVal.dict d =>
    if pyDictHasKey d "homework_name" = false then
      Except.error (PyError.keyError "The \"homework_name\" is missing")
    else if pyDictHasKey d "status" = false then
      Except.error (PyError.keyError "The \"status\" is missing")
    else if statusKnown (pyDictGet d "status") = false then
      Except.error (PyError.valueError "Status unknown or missing")
    else
      Except.ok ("Изменился статус проверки работы \"" ++
        pyStr (pyDictGet d "homework_name") ++ "\". " ++
        verdictText (pyDictGet d "status"))
  | PyVal.str s =>
    if strContains s "homework_name" = false then
      Except.error (PyError.keyError "The \"homework_name\" is missing")
    else if strContains s "status" = false then
      Except.error (PyError.keyError "The \"status\" is missing")
    else Except.error (PyError.attributeError "str object has no attribute get")
  | PyVal.list l =>
    if pyListHasStr l "homework_name" = false then
      Except.error (PyError.keyError "The \"homework_name\" is missing")
    else if pyListHasStr l "status" = false then
      Except.error (PyError.keyError "The \"status\" is missing")
    else Except.error (PyError.attributeError "list object has no attribute get")
  | _ => Except.error (PyError.typeError "argument is not iterable")

/-- One observable side effect of an iteration: a log line at its severity,
an invocation of `bot.send_message` with the text handed to the bot API, or
the `time.sleep` of the `finally` block. -/
inductive Event where
  | logDebug : String → Event
  | logError : String → Event
  | logCritical : String → Event
  | botSend : String → Event
  | sleepSec : Nat → Event
deriving DecidableEq

/-- How the bot API answers one `bot.send_message` call: it accepts, it
rejects with `telegram.error.BadRequest` (carrying its text), or the bot
library raises some other exception (e.g. a transport error). -/
inductive SendOutcome where
  | ok : SendOutcome
  | badRequest : String → SendOutcome
  | raiseErr : PyError → SendOutcome
deriving DecidableEq

/-- `raiseErr` is the only outcome on which `bot.send_message` raises
something other than `BadRequest`. -/
def noRaise : SendOutcome → Bool
  | SendOutcome.raiseErr _ => false
  | _ => true

/-- `send_message(bot, message)` (src/homework.py lines 32-44): invokes the
bot API (always an invocation event), logs at debug on acceptance, catches
only `BadRequest` — logging the rejection — and then falls through to the
unconditional `return True`; any other exception propagates. -/
def send_message (outcome : SendOutcome) (message : String) :
    List Event × Except PyError Bool :=
  match outcome with
  | SendOutcome.ok =>
      ([Event.botSend message, Event.logDebug "Bot sent message to Telegram"],
       Except.ok true)
  | SendOutcome.badRequest e =>
      ([Event.botSend message,
        Event.logError ("Error \"" ++ e ++ "\" when sending a message to Telegram")],
       Except.ok true)
  | SendOutcome.raiseErr e =>
      ([Event.botSend message], Except.error e)

/-- How one `requests.get` turns out: the transport raises
`requests.RequestException` (carrying its text), or an HTTP response with a
status code and parsed JSON body arrives. -/
inductive FetchOutcome where
  | transportError : String → FetchOutcome
  | httpResponse : Nat → PyVal → FetchOutcome

/-- `get_api_answer(timestamp)` (src/homework.py lines 47-70): a transport
failure or a non-200 status code both raise `ConnectionError` naming the
endpoint; on 200 the parsed body is returned. -/
def get_api_answer (outcome : FetchOutcome) : Except PyError PyVal :=
  match outcome with
  | FetchOutcome.transportError err =>
      Except.error (PyError.connectionError
        ("Error " ++ err ++ " occurred when requesting the API endpoint: " ++ ENDPOINT))
  | FetchOutcome.httpResponse code body =>
      if code != 200 then
        Except.error (PyError.connectionError
          ("Endpoint " ++ ENDPOINT ++ " unavailable. Status code: " ++ toString code))
      else Except.ok body

/-- A CPython string object: its value together with an allocation id, so
that the source's `is not` (object identity, src/homework.py lines 134 and
144) can be modelled. Every string an iteration constructs is a fresh
object with an unused id. -/
structure PyStr where
  oid : Nat
  val : String
deriving DecidableEq

/-- The loop-local state of `main`: the `timestamp` params dict (the
cursor), the `previous_message` object (LastMessage), and the next unused
allocation id of the identity model. -/
structure LoopState where
  timestamp : PyVal
  previous_message : PyStr
  nextId : Nat

/-- The external nondeterminism of one iteration: how the HTTP fetch turns
out, and how the bot API answers the status send and — should the handler
run — the diagnostic send. -/
structure StepInput where
  fetch : FetchOutcome
  sendStatus : SendOutcome
  sendDiag : SendOutcome

/-- What one iteration produced: its events in order, and either the next
loop state or an exception that escaped the iteration (only a non-
`BadRequest` failure of the diagnostic send can). -/
structure StepResult where
  events : List Event
  out : Except PyError LoopState

/-- The `try` block of one iteration of `main` (src/homework.py lines
129-139): fetch, validate, and if the homeworks list is truthy parse
element 0, compare the fresh message object against `previous_message` by
identity, send, and on a true return update `previous_message` and advance
`timestamp` to the response's `current_date`. An error result carries the
events emitted before the exception. -/
def tryBlock (s : LoopState) (inp : StepInput) :
    Except (PyError × List Event) (LoopState × List Event) :=
  match get_api_answer inp.fetch with
  | Except.error e => Except.error (e, [])
  | Except.ok response =>
    match check_response response with
    | Except.error e => Except.error (e, [])
    | Except.ok homeworks =>
      if pyTruthy homeworks = true then
        match parse_status (pyIndex0 homeworks) with
        | Except.error e => Except.error (e, [])
        | Except.ok msgVal =>
          if s.nextId ≠ s.previous_message.oid then
            match (send_message inp.sendStatus msgVal).2 with
            | Except.error e => Except.error (e, (send_message inp.sendStatus msgVal).1)
            | Except.ok b =>
              if b then
                Except.ok
                  ({ timestamp := PyVal.dict [("from_date", pyGet response "current_date")],
                     previous_message := ⟨s.nextId, msgVal⟩,
                     nextId := s.nextId + 2 },
                   (send_message inp.sendStatus msgVal).1)
              else Except.ok ({ s with nextId := s.nextId + 2 },
                              (send_message inp.sendStatus msgVal).1)
          else Except.ok ({ s with nextId := s.nextId + 2 }, [])
      else Except.ok ({ s with nextId := s.nextId + 2 }, [Event.logDebug "Status not updated"])

/-- The diagnostic text the handler formats from a caught exception. -/
def diagOf (e : PyError) : String :=
  "Сбой в работе программы: " ++ errStr e

/-- The `except Exception` handler of `main` (src/homework.py lines
141-146): format the diagnostic, log it, and when the fresh diagnostic
object differs by identity from `previous_message`, send it; a true return
records it as `previous_message`. A non-`BadRequest` failure of this send
escapes the handler. The `timestamp` is never touched here. -/
def exceptBlock (s : LoopState) (e : PyError) (d : SendOutcome) :
    List Event × Except PyError LoopState :=
  if s.nextId + 1 ≠ s.previous_message.oid then
    match (send_message d (diagOf e)).2 with
    | Except.error e2 =>
        (Event.logError (diagOf e) :: (send_message d (diagOf e)).1, Except.error e2)
    | Except.ok b =>
      if b then
        (Event.logError (diagOf e) :: (send_message d (diagOf e)).1,
         Except.ok { s with previous_message := ⟨s.nextId + 1, diagOf e⟩,
                            nextId := s.nextId + 2 })
      else
        (Event.logError (diagOf e) :: (send_message d (diagOf e)).1,
         Except.ok { s with nextId := s.nextId + 2 })
  else ([Event.logError (diagOf e)], Except.ok { s with nextId := s.nextId + 2 })

/-- One full iteration of the `while True` loop of `main` (src/homework.py
lines 128-149): the `try` block, the `except Exception` handler when it
raised, and the `finally` sleep of `RETRY_PERIOD` seconds in every case. -/
def mainStep (s : LoopState) (inp : StepInput) : StepResult :=
  match tryBlock s inp with
  | Except.ok (s2, evs) =>
      { events := evs ++ [Event.sleepSec RETRY_PERIOD], out := Except.ok s2 }
  | Except.error (e, evs) =>
      { events := evs ++ (exceptBlock s e inp.sendDiag).1 ++ [Event.sleepSec RETRY_PERIOD],
        out := (exceptBlock s e inp.sendDiag).2 }

/-- The loop state `main` enters the loop with: `timestamp` holds the start
time, `previous_message` is the literal `''` (id 0), ids from 1 are free. -/
def initState (startTime : Int) : LoopState :=
  { timestamp := PyVal.dict [("from_date", PyVal.int startTime)],
    previous_message := ⟨0, ""⟩,
    nextId := 1 }

/-- The three environment values `main` needs (`os.getenv` yields `none`
for an unset variable). -/
structure Env where
  practicum_token : Option String
  telegram_token : Option String
  telegram_chat_id : Option String

/-- Python truthiness of an `os.getenv` result: unset and the empty string
are falsy. -/
def truthyOpt : Option String → Bool
  | Option.none => false
  | Option.some s => s != ""

/-- `check_tokens()` (src/homework.py lines 27-29):
`all((PRACTICUM_TOKEN, TELEGRAM_TOKEN, TELEGRAM_CHAT_ID))`. -/
def check_tokens (env : Env) : Bool :=
  truthyOpt env.practicum_token && truthyOpt env.telegram_token &&
    truthyOpt env.telegram_chat_id

/-- What the startup of `main` (src/homework.py lines 118-126) did before
the loop: its events, and whether execution reached the polling loop. -/
structure StartupResult where
  events : List Event
  entersLoop : Bool

/-- The startup of `main`: when `check_tokens()` is false it logs at
critical severity and evaluates the bare expression `SystemExit()` — which
constructs the exception object and discards it without raising — then
falls through to building the bot and entering the loop. Execution
therefore reaches the loop in both cases. -/
def mainStartup (env : Env) : StartupResult :=
  if check_tokens env = false then
    { events := [Event.logCritical "Required environment variables are missing"],
      entersLoop := true }
  else { events := [], entersLoop := true }

/-- The status message an iteration derives, when fetch, validation and
status extraction all succeed on a nonempty homeworks list. -/
def derivedStatusMessage (inp : StepInput) : Option String :=
  match get_api_answer inp.fetch with
  | Except.error _ => Option.none
  | Except.ok response =>
    match check_response response with
    | Except.error _ => Option.none
    | Except.ok homeworks =>
      if pyTruthy homeworks = true then
        match parse_status (pyIndex0 homeworks) with
        | Except.error _ => Option.none
        | Except.ok m => Option.some m
      else Option.none

/-- The first error of the fetch / validate / extract phases of an
iteration, when one of them raises. -/
def tryPhaseError (inp : StepInput) : Option PyError :=
  match get_api_answer inp.fetch with
  | Except.error e => Option.some e
  | Except.ok response =>
    match check_response response with
    | Except.error e => Option.some e
    | Except.ok homeworks =>
      if pyTruthy homeworks = true then
        match parse_status (pyIndex0 homeworks) with
        | Except.error e => Option.some e
        | Except.ok _ => Option.none
      else Option.none

/-- `send_message` reported success: it returned `True` without raising. -/
def reportsSuccess (r : Except PyError Bool) : Bool :=
  match r with
  | Except.ok true => true
  | _ => false

/-- The condition under which an iteration advances the cursor: a status
message was derived and its send reported success. -/
def cursorAdvanceCond (inp : StepInput) : Bool :=
  match derivedStatusMessage inp with
  | Option.some m => reportsSuccess (send_message inp.sendStatus m).2
  | Option.none => false

/-- The cursor value a successful iteration advances to: a params dict
holding the response's `current_date`. -/
def advancedTimestamp (inp : StepInput) : PyVal :=
  match get_api_answer inp.fetch with
  | Except.ok response => PyVal.dict [("from_date", pyGet response "current_date")]
  | Except.error _ => PyVal.none

/-- How many times `bot.send_message` was invoked in an event list. -/
def countBotSends (evs : List Event) : Nat :=
  (evs.filter (fun e => match e with | Event.botSend _ => true | _ => false)).length

/-- Scenario 1's response body. -/
def scenario1Body : PyVal :=
  PyVal.dict [("homeworks",
    PyVal.list [PyVal.dict [("homework_name", PyVal.str "hw1"), ("status", PyVal.str "approved")]]),
    ("current_date", PyVal.int 1000)]

/-- Scenario 1 as a step input: a 200 response, both sends accepted. -/
def scenario1Input : StepInput :=
  { fetch := FetchOutcome.httpResponse 200 scenario1Body,
    sendStatus := SendOutcome.ok, sendDiag := SendOutcome.ok }

/-- The message scenario 1 derives. -/
def scenario1Msg : String :=
  "Изменился статус проверки работы \"hw1\". Работа проверена: ревьюеру всё понравилось. Ура!"

/-- The loop state after running scenario 1 from `initState 0`. -/
def scenario1After : LoopState :=
  { timestamp := PyVal.dict [("from_date", PyVal.int 1000)],
    previous_message := ⟨1, scenario1Msg⟩,
    nextId := 3 }

/-- Scenario 3's response body: `current_date` only, no `homeworks` key. -/
def noHomeworksResp : PyVal := PyVal.dict [("current_date", PyVal.int 1000)]

/-- Scenario 3 as a step input, the diagnostic send accepted. -/
def diagInput : StepInput :=
  { fetch := FetchOutcome.httpResponse 200 noHomeworksResp,
    sendStatus := SendOutcome.ok, sendDiag := SendOutcome.ok }

/-- The diagnostic scenario 3 formats (`str` of a `KeyError` is the `repr`
of its message, hence the inner quotes). -/
def diagMsg : String := "Сбой в работе программы: 'The \"homework\" key not found'"

/-- The loop state after one scenario-3 iteration from `initState 0`. -/
def diagAfter : LoopState :=
  { timestamp := PyVal.dict [("from_date", PyVal.int 0)],
    previous_message := ⟨2, diagMsg⟩,
    nextId := 3 }

/-- An environment missing the Practicum API token. -/
def envMissing : Env :=
  { practicum_token := Option.none, telegram_token := Option.some "t",
    telegram_chat_id := Option.some "c" }

/-- Scenario 2's response body: an empty homeworks list. -/
def emptyHwBody : PyVal :=
  PyVal.dict [("homeworks", PyVal.list []), ("current_date", PyVal.int 1000)]

/-- Scenario 2 as a step input. -/
def emptyHwInput : StepInput :=
  { fetch := FetchOutcome.httpResponse 200 emptyHwBody,
    sendStatus := SendOutcome.ok, sendDiag := SendOutcome.ok }

/-- An input whose status send the bot API rejects with `BadRequest`. -/
def rejectedSendInput : StepInput :=
  { fetch := FetchOutcome.httpResponse 200 scenario1Body,
    sendStatus := SendOutcome.badRequest "Bad Request: chat not found",
    sendDiag := SendOutcome.ok }

/-- An input whose status send raises a non-`BadRequest` exception. -/
def sendCrashInput : StepInput :=
  { fetch := FetchOutcome.httpResponse 200 scenario1Body,
    sendStatus := SendOutcome.raiseErr (PyError.connectionError "urllib3 connection aborted"),
    sendDiag := SendOutcome.ok }

/-- A present dict key means `get` cannot yield a string via the default. -/
theorem hasKey_of_get_str (d : List (String × PyVal)) (k n : String)
    (h : pyDictGet d k = PyVal.str n) : pyDictHasKey d k = true := by
  unfold pyDictGet at h
  unfold pyDictHasKey
  cases hf : d.find? (fun p => p.1 == k) with
  | none => rw [hf] at h; simp at h
  | some p => simp [hf]

/-- When a fetch / validation / extraction phase raises, the try block ends
with that error and no events. -/
theorem tryBlock_of_phaseError (s : LoopState) (inp : StepInput) (e : PyError)
    (h : tryPhaseError inp = Option.some e) :
    tryBlock s inp = Except.error (e, []) := by
  unfold tryPhaseError at h
  unfold tryBlock
  cases hf : get_api_answer inp.fetch with
  | error e1 => simp_all
  | ok response =>
    cases hc : check_response response with
    | error e1 => simp_all
    | ok homeworks =>
      cases ht : pyTruthy homeworks with
      | false => simp_all
      | true =>
        cases hp : parse_status (pyIndex0 homeworks) with
        | error e1 => simp_all
        | ok m => simp_all

/-- When a status message is derived, the try block is decided by the
status send: raising escapes with the send's events, returning true updates
both `previous_message` and the cursor. -/
theorem tryBlock_derived (s : LoopState) (inp : StepInput) (m : String)
    (hwf : s.previous_message.oid < s.nextId)
    (hm : derivedStatusMessage inp = Option.some m) :
    tryBlock s inp =
      match (send_message inp.sendStatus m).2 with
      | Except.error e => Except.error (e, (send_message inp.sendStatus m).1)
      | Except.ok b =>
        if b then
          Except.ok ({ timestamp := advancedTimestamp inp,
                       previous_message := ⟨s.nextId, m⟩, nextId := s.nextId + 2 },
                     (send_message inp.sendStatus m).1)
        else Except.ok ({ s with nextId := s.nextId + 2 },
                        (send_message inp.sendStatus m).1) := by
  have hne : s.nextId ≠ s.previous_message.oid := by omega
  unfold derivedStatusMessage at hm
  unfold tryBlock advancedTimestamp
  cases hf : get_api_answer inp.fetch with
  | error e1 => simp [hf] at hm
  | ok response =>
    cases hc : check_response response with
    | error e1 => simp [hf, hc] at hm
    | ok homeworks =>
      cases ht : pyTruthy homeworks with
      | false => simp [hf, hc, ht] at hm
      | true =>
        cases hp : parse_status (pyIndex0 homeworks) with
        | error e1 => simp [hf, hc, ht, hp] at hm
        | ok m1 =>
          simp [hf, hc, ht, hp] at hm
          subst hm
          cases hr : (send_message inp.sendStatus m1).2 with
          | error e2 => simp [hc, ht, hp, hne, hr]
          | ok b => cases b <;> simp [hc, ht, hp, hne, hr]

/-- The handler's result when the diagnostic send does not raise: the
diagnostic is logged, sent, and recorded as `previous_message`; the
`timestamp` is untouched. -/
theorem exceptBlock_noRaise_eq (s : LoopState) (e : PyError) (d : SendOutcome)
    (hwf : s.previous_message.oid < s.nextId) (hd : noRaise d = true) :
    exceptBlock s e d =
      (Event.logError (diagOf e) :: (send_message d (diagOf e)).1,
       Except.ok { s with previous_message := ⟨s.nextId + 1, diagOf e⟩,
                          nextId := s.nextId + 2 }) := by
  have hne : s.nextId + 1 ≠ s.previous_message.oid := by omega
  unfold exceptBlock
  rw [if_pos hne]
  cases d with
  | ok => rfl
  | badRequest m => rfl
  | raiseErr e2 => simp [noRaise] at hd

/-- Whatever the handler does, a state it hands back carries the old
cursor. -/
theorem exceptBlock_preserves_timestamp (s : LoopState) (e : PyError) (d : SendOutcome)
    (s2 : LoopState) (h : (exceptBlock s e d).2 = Except.ok s2) :
    s2.timestamp = s.timestamp := by
  unfold exceptBlock at h
  by_cases hne : s.nextId + 1 ≠ s.previous_message.oid
  · rw [if_pos hne] at h
    cases hr : (send_message d (diagOf e)).2 with
    | error e2 => rw [hr] at h; simp at h
    | ok b =>
      rw [hr] at h
      cases b
      · simp at h; subst h; rfl
      · simp at h; subst h; rfl
  · rw [if_neg hne] at h
    simp at h
    subst h
    rfl

/-- Claim C4: check_response performs its six checks in order and fails
with a distinct error kind at the first violation (type error for a
non-mapping input; missing-key error for an absent homeworks key; type
error for a non-sequence homeworks value; missing-key error for an absent
current_date key; value error for a null current_date; type error for a
non-integer current_date), and on success returns the homeworks sequence
unchanged, order preserved, possibly empty. -/
theorem check_response_ordered_validation (r : PyVal) :
    (isDictV r = false →
      check_response r = Except.error (PyError.typeError "The data must be of the dict type")) ∧
    (∀ d, r = PyVal.dict d →
      (pyDictHasKey d "homeworks" = false →
        check_response r = Except.error (PyError.keyError "The \"homework\" key not found")) ∧
      (pyDictHasKey d "homeworks" = true →
       isListV (pyDictGet d "homeworks") = false →
        check_response r = Except.error (PyError.typeError "The data must be of the list type")) ∧
      (isListV (pyDictGet d "homeworks") = true →
       pyDictHasKey d "current_date" = false →
        check_response r = Except.error (PyError.keyError "The \"current_date\" key not found")) ∧
      (isListV (pyDictGet d "homeworks") = true →
       pyDictHasKey d "current_date" = true →
       isNoneV (pyDictGet d "current_date") = true →
        check_response r = Except.error (PyError.valueError "The \"current_date\" value not found")) ∧
      (isListV (pyDictGet d "homeworks") = true →
       pyDictHasKey d "current_date" = true →
       isNoneV (pyDictGet d "current_date") = false →
       isIntV (pyDictGet d "current_date") = false →
        check_response r = Except.error (PyError.typeError "The data must be of the int type")) ∧
      (∀ l, pyDictGet d "homeworks" = PyVal.list l →
       pyDictHasKey d "current_date" = true →
       isNoneV (pyDictGet d "current_date") = false →
       isIntV (pyDictGet d "current_date") = true →
        check_response r = Except.ok (PyVal.list l))) := by
  constructor
  · intro h
    cases r <;> simp_all [isDictV, check_response]
  · intro d hd
    subst hd
    refine ⟨?_, ?_, ?_, ?_, ?_, ?_⟩
    · intro h1
      simp [check_response, h1]
    · intro h1 h2
      simp [check_response, h1, h2]
    · intro h2 h3
      have h1 : pyDictHasKey d "homeworks" = true := by
        unfold pyDictHasKey
        unfold pyDictGet at h2
        cases hf : d.find? (fun p => p.1 == "homeworks") with
        | none => rw [hf] at h2; simp [isListV] at h2
        | some p => simp [hf]
      simp [check_response, h1, h2, h3]
    · intro h2 h3 h4
      have h1 : pyDictHasKey d "homeworks" = true := by
        unfold pyDictHasKey
        unfold pyDictGet at h2
        cases hf : d.find? (fun p => p.1 == "homeworks") with
        | none => rw [hf] at h2; simp [isListV] at h2
        | some p => simp [hf]
      simp [check_response, h1, h2, h3, h4]
    · intro h2 h3 h4 h5
      have h1 : pyDictHasKey d "homeworks" = true := by
        unfold pyDictHasKey
        unfold pyDictGet at h2
        cases hf : d.find? (fun p => p.1 == "homeworks") with
        | none => rw [hf] at h2; simp [isListV] at h2
        | some p => simp [hf]
      simp [check_response, h1, h2, h3, h4, h5]
    · intro l hl h3 h4 h5
      have h1 : pyDictHasKey d "homeworks" = true := by
        unfold pyDictHasKey
        unfold pyDictGet at hl
        cases hf : d.find? (fun p => p.1 == "homeworks") with
        | none => rw [hf] at hl; simp at hl
        | some p => simp [hf]
      have h2 : isListV (pyDictGet d "homeworks") = true := by rw [hl]; rfl
      simp [check_response, isListV, h1, h2, h3, h4, h5, hl]

/-- Witness for C4: the six-check validator accepts scenario 1's body and
returns its homeworks list unchanged. -/
theorem check_response_ordered_validation_witness :
    check_response scenario1Body =
      Except.ok (PyVal.list [PyVal.dict [("homework_name", PyVal.str "hw1"),
                                         ("status", PyVal.str "approved")]]) :=
  ((check_response_ordered_validation scenario1Body).2
      [("homeworks", PyVal.list [PyVal.dict [("homework_name", PyVal.str "hw1"),
                                             ("status", PyVal.str "approved")]]),
       ("current_date", PyVal.int 1000)] rfl).2.2.2.2.2
    [PyVal.dict [("homework_name", PyVal.str "hw1"), ("status", PyVal.str "approved")]]
    rfl rfl rfl rfl

/-- Claim C5: for every homework record whose homework_name maps to a
string and whose status is a key of the verdict table, parse_status
returns exactly the formatted status-change message built from that name
and the verdict text. -/
theorem parse_status_success_format (d : List (String × PyVal)) (name st verdict : String)
    (hn : pyDictGet d "homework_name" = PyVal.str name)
    (hs : pyDictGet d "status" = PyVal.str st)
    (hv : (HOMEWORK_VERDICTS.find? (fun p => p.1 == st)).map Prod.snd = Option.some verdict) :
    parse_status (PyVal.dict d) =
      Except.ok ("Изменился статус проверки работы \"" ++ name ++ "\". " ++ verdict) := by
  have h1 : pyDictHasKey d "homework_name" = true := hasKey_of_get_str d "homework_name" name hn
  have h2 : pyDictHasKey d "status" = true := hasKey_of_get_str d "status" st hs
  have h3 : statusKnown (pyDictGet d "status") = true := by
    rw [hs]
    unfold statusKnown
    cases hfind : HOMEWORK_VERDICTS.find? (fun p => p.1 == st) with
    | none => rw [hfind] at hv; simp at hv
    | some p => simp [hfind]
  have h4 : verdictText (pyDictGet d "status") = verdict := by
    rw [hs]
    simp [verdictText, hv]
  simp [parse_status, h1, h2, h3, h4, hn, pyStr]

/-- Witness for C5, scenario 1's record: the approved verdict message. -/
theorem parse_status_success_format_witness :
    parse_status (PyVal.dict [("homework_name", PyVal.str "hw1"),
                              ("status", PyVal.str "approved")]) =
      Except.ok ("Изменился статус проверки работы \"" ++ "hw1" ++ "\". " ++
        "Работа проверена: ревьюеру всё понравилось. Ура!") :=
  parse_status_success_format
    [("homework_name", PyVal.str "hw1"), ("status", PyVal.str "approved")]
    "hw1" "approved" "Работа проверена: ревьюеру всё понравилось. Ура!" rfl rfl rfl

/-- Claim C6: a homework record missing homework_name fails with a
missing-field error; one with homework_name but no status fails with a
missing-field error; one with both present whose status is not one of
approved / reviewing / rejected fails with an unknown-status error (the
verdict-table keys are exactly those three); in all these cases
parse_status never returns a message. -/
theorem parse_status_failure_modes (d : List (String × PyVal)) :
    (pyDictHasKey d "homework_name" = false →
      parse_status (PyVal.dict d) =
        Except.error (PyError.keyError "The \"homework_name\" is missing")) ∧
    (pyDictHasKey d "homework_name" = true → pyDictHasKey d "status" = false →
      parse_status (PyVal.dict d) =
        Except.error (PyError.keyError "The \"status\" is missing")) ∧
    (pyDictHasKey d "homework_name" = true → pyDictHasKey d "status" = true →
     statusKnown (pyDictGet d "status") = false →
      parse_status (PyVal.dict d) =
        Except.error (PyError.valueError "Status unknown or missing")) ∧
    (∀ st : String, statusKnown (PyVal.str st) =
      ((("approved" : String) == st) || (("reviewing" : String) == st) ||
        (("rejected" : String) == st))) ∧
    ((pyDictHasKey d "homework_name" = false ∨ pyDictHasKey d "status" = false ∨
      statusKnown (pyDictGet d "status") = false) →
      ∀ m, parse_status (PyVal.dict d) ≠ Except.ok m) := by
  have hkeys : ∀ st : String, statusKnown (PyVal.str st) =
      ((("approved" : String) == st) || (("reviewing" : String) == st) ||
        (("rejected" : String) == st)) := by
    intro st
    unfold statusKnown HOMEWORK_VERDICTS
    cases h1 : (("approved" : String) == st) with
    | true => simp [List.find?, h1]
    | false =>
      cases h2 : (("reviewing" : String) == st) with
      | true => simp [List.find?, h1, h2]
      | false =>
        cases h3 : (("rejected" : String) == st) with
        | true => simp [List.find?, h1, h2, h3]
        | false => simp [List.find?, h1, h2, h3]
  refine ⟨?_, ?_, ?_, hkeys, ?_⟩
  · intro h1
    simp [parse_status, h1]
  · intro h1 h2
    simp [parse_status, h1, h2]
  · intro h1 h2 h3
    simp [parse_status, h1, h2, h3]
  · intro hbad m
    rcases hbad with h1 | h2 | h3
    · simp [parse_status, h1]
    · cases h1 : pyDictHasKey d "homework_name" with
      | false => simp [parse_status, h1]
      | true => simp [parse_status, h1, h2]
    · cases h1 : pyDictHasKey d "homework_name" with
      | false => simp [parse_status, h1]
      | true =>
        cases h2 : pyDictHasKey d "status" with
        | false => simp [parse_status, h1, h2]
        | true => simp [parse_status, h1, h2, h3]

/-- Witness for C6 at scenario 4's record: an unknown status code fails
with the unknown-status error. -/
theorem parse_status_failure_modes_witness :
    parse_status (PyVal.dict [("homework_name", PyVal.str "hw1"),
                              ("status", PyVal.str "unknown_code")]) =
      Except.error (PyError.valueError "Status unknown or missing") :=
  (parse_status_failure_modes
      [("homework_name", PyVal.str "hw1"), ("status", PyVal.str "unknown_code")]).2.2.1
    rfl rfl rfl

/-- Claim C7: when the bot API rejects the send with BadRequest,
send_message logs the rejection, swallows it, and still reports success
(returns True); in the loop this lets previous_message and the cursor be
updated for a message that was never delivered. -/
theorem send_message_swallows_rejection (s : LoopState) (inp : StepInput) (e m : String)
    (hwf : s.previous_message.oid < s.nextId)
    (hm : derivedStatusMessage inp = Option.some m)
    (hs : inp.sendStatus = SendOutcome.badRequest e) :
    (send_message (SendOutcome.badRequest e) m).2 = Except.ok true ∧
    (send_message (SendOutcome.badRequest e) m).1 =
      [Event.botSend m,
       Event.logError ("Error \"" ++ e ++ "\" when sending a message to Telegram")] ∧
    (mainStep s inp).out = Except.ok
      { timestamp := advancedTimestamp inp,
        previous_message := ⟨s.nextId, m⟩, nextId := s.nextId + 2 } := by
  refine ⟨rfl, rfl, ?_⟩
  have h := tryBlock_derived s inp m hwf hm
  rw [hs] at h
  have htb : tryBlock s inp = Except.ok
      ({ timestamp := advancedTimestamp inp,
         previous_message := ⟨s.nextId, m⟩, nextId := s.nextId + 2 },
       [Event.botSend m,
        Event.logError ("Error \"" ++ e ++ "\" when sending a message to Telegram")]) := h
  unfold mainStep
  rw [htb]

/-- Witness for C7: scenario 1's poll with the send rejected still updates
the state as if delivered. -/
theorem send_message_swallows_rejection_witness :
    (send_message (SendOutcome.badRequest "Bad Request: chat not found") scenario1Msg).2 =
      Except.ok true ∧
    (send_message (SendOutcome.badRequest "Bad Request: chat not found") scenario1Msg).1 =
      [Event.botSend scenario1Msg,
       Event.logError ("Error \"" ++ "Bad Request: chat not found" ++
         "\" when sending a message to Telegram")] ∧
    (mainStep (initState 0) rejectedSendInput).out = Except.ok
      { timestamp := advancedTimestamp rejectedSendInput,
        previous_message := ⟨(initState 0).nextId, scenario1Msg⟩,
        nextId := (initState 0).nextId + 2 } :=
  send_message_swallows_rejection (initState 0) rejectedSendInput
    "Bad Request: chat not found" scenario1Msg (by decide) rfl rfl

/-- Claim C8: a successfully validated poll whose homeworks list is empty
only logs at debug level: no send is attempted, previous_message and the
cursor are unchanged. -/
theorem empty_homeworks_no_action (s : LoopState) (inp : StepInput) (response : PyVal)
    (hf : get_api_answer inp.fetch = Except.ok response)
    (hc : check_response response = Except.ok (PyVal.list [])) :
    (mainStep s inp).out = Except.ok { s with nextId := s.nextId + 2 } ∧
    (mainStep s inp).events =
      [Event.logDebug "Status not updated", Event.sleepSec RETRY_PERIOD] ∧
    ({ s with nextId := s.nextId + 2 } : LoopState).timestamp = s.timestamp ∧
    ({ s with nextId := s.nextId + 2 } : LoopState).previous_message = s.previous_message ∧
    countBotSends (mainStep s inp).events = 0 := by
  have htb : tryBlock s inp = Except.ok
      ({ s with nextId := s.nextId + 2 }, [Event.logDebug "Status not updated"]) := by
    unfold tryBlock
    rw [hf]
    simp [hc, pyTruthy]
  unfold mainStep
  rw [htb]
  exact ⟨rfl, rfl, rfl, rfl, rfl⟩

/-- Witness for C8, scenario 2: the empty-homeworks poll from start time 0. -/
theorem empty_homeworks_no_action_witness :
    (mainStep (initState 0) emptyHwInput).out =
      Except.ok { initState 0 with nextId := (initState 0).nextId + 2 } ∧
    (mainStep (initState 0) emptyHwInput).events =
      [Event.logDebug "Status not updated", Event.sleepSec RETRY_PERIOD] ∧
    ({ initState 0 with nextId := (initState 0).nextId + 2 } : LoopState).timestamp =
      (initState 0).timestamp ∧
    ({ initState 0 with nextId := (initState 0).nextId + 2 } : LoopState).previous_message =
      (initState 0).previous_message ∧
    countBotSends (mainStep (initState 0) emptyHwInput).events = 0 :=
  empty_homeworks_no_action (initState 0) emptyHwInput emptyHwBody rfl rfl

/-- Claim C9: an error raised during fetch, validation or status
extraction is caught by the iteration, formatted into the single
diagnostic string, logged, sent via the bot (its invocation appears in the
events) and recorded as previous_message; the cursor is unchanged and the
loop goes on to the sleep with that same cursor. -/
theorem error_path_caught_and_notified (s : LoopState) (inp : StepInput) (e : PyError)
    (hwf : s.previous_message.oid < s.nextId)
    (he : tryPhaseError inp = Option.some e)
    (hnd : noRaise inp.sendDiag = true)
    (hdist : diagOf e ≠ s.previous_message.val) :
    (mainStep s inp).out = Except.ok
      { s with previous_message := ⟨s.nextId + 1, diagOf e⟩, nextId := s.nextId + 2 } ∧
    (mainStep s inp).events =
      (Event.logError (diagOf e) :: (send_message inp.sendDiag (diagOf e)).1) ++
        [Event.sleepSec RETRY_PERIOD] ∧
    Event.botSend (diagOf e) ∈ (mainStep s inp).events ∧
    ({ s with previous_message := ⟨s.nextId + 1, diagOf e⟩,
              nextId := s.nextId + 2 } : LoopState).timestamp = s.timestamp := by
  have htb := tryBlock_of_phaseError s inp e he
  have heb := exceptBlock_noRaise_eq s e inp.sendDiag hwf hnd
  unfold mainStep
  rw [htb]
  simp only [heb]
  refine ⟨by simp, by simp, ?_, by simp⟩
  cases hd : inp.sendDiag with
  | ok => simp [send_message]
  | badRequest m => simp [send_message]
  | raiseErr e2 => rw [hd] at hnd; simp [noRaise] at hnd

/-- Witness for C9, scenario 3's first poll: the missing-homeworks
KeyError is caught, notified once and recorded. -/
theorem error_path_caught_and_notified_witness :
    (mainStep (initState 0) diagInput).out = Except.ok
      { initState 0 with
        previous_message := ⟨(initState 0).nextId + 1,
          diagOf (PyError.keyError "The \"homework\" key not found")⟩,
        nextId := (initState 0).nextId + 2 } ∧
    (mainStep (initState 0) diagInput).events =
      (Event.logError (diagOf (PyError.keyError "The \"homework\" key not found")) ::
        (send_message diagInput.sendDiag
          (diagOf (PyError.keyError "The \"homework\" key not found"))).1) ++
        [Event.sleepSec RETRY_PERIOD] ∧
    Event.botSend (diagOf (PyError.keyError "The \"homework\" key not found")) ∈
      (mainStep (initState 0) diagInput).events ∧
    ({ initState 0 with
        previous_message := ⟨(initState 0).nextId + 1,
          diagOf (PyError.keyError "The \"homework\" key not found")⟩,
        nextId := (initState 0).nextId + 2 } : LoopState).timestamp =
      (initState 0).timestamp :=
  error_path_caught_and_notified (initState 0) diagInput
    (PyError.keyError "The \"homework\" key not found") (by decide) rfl rfl (by decide)

/-- Claim C10: send_message swallows only BadRequest; a different
exception from the bot library propagates to the iteration's catch-all
(while BadRequest still reports success), is itself reported as a
diagnostic, and neither previous_message nor the cursor is updated for the
original message. -/
theorem send_error_propagates_to_catch_all (s : LoopState) (inp : StepInput)
    (m : String) (ex : PyError)
    (hwf : s.previous_message.oid < s.nextId)
    (hm : derivedStatusMessage inp = Option.some m)
    (hs : inp.sendStatus = SendOutcome.raiseErr ex)
    (hnd : noRaise inp.sendDiag = true) :
    (send_message (SendOutcome.raiseErr ex) m).2 = Except.error ex ∧
    (∀ br, (send_message (SendOutcome.badRequest br) m).2 = Except.ok true) ∧
    (mainStep s inp).out = Except.ok
      { s with previous_message := ⟨s.nextId + 1, diagOf ex⟩, nextId := s.nextId + 2 } ∧
    Event.botSend (diagOf ex) ∈ (mainStep s inp).events ∧
    ({ s with previous_message := ⟨s.nextId + 1, diagOf ex⟩,
              nextId := s.nextId + 2 } : LoopState).timestamp = s.timestamp := by
  have h := tryBlock_derived s inp m hwf hm
  rw [hs] at h
  have htb : tryBlock s inp = Except.error (ex, [Event.botSend m]) := h
  have heb := exceptBlock_noRaise_eq s ex inp.sendDiag hwf hnd
  unfold mainStep
  rw [htb]
  simp only [heb]
  refine ⟨rfl, fun br => rfl, by simp, ?_, by simp⟩
  cases hd : inp.sendDiag with
  | ok => simp [send_message]
  | badRequest m2 => simp [send_message]
  | raiseErr e2 => rw [hd] at hnd; simp [noRaise] at hnd

/-- Witness for C10: scenario 1's poll whose status send raises a
connection error from the bot library. -/
theorem send_error_propagates_to_catch_all_witness :
    (send_message (SendOutcome.raiseErr (PyError.connectionError "urllib3 connection aborted"))
        scenario1Msg).2 =
      Except.error (PyError.connectionError "urllib3 connection aborted") ∧
    (∀ br, (send_message (SendOutcome.badRequest br) scenario1Msg).2 = Except.ok true) ∧
    (mainStep (initState 0) sendCrashInput).out = Except.ok
      { initState 0 with
        previous_message := ⟨(initState 0).nextId + 1,
          diagOf (PyError.connectionError "urllib3 connection aborted")⟩,
        nextId := (initState 0).nextId + 2 } ∧
    Event.botSend (diagOf (PyError.connectionError "urllib3 connection aborted")) ∈
      (mainStep (initState 0) sendCrashInput).events ∧
    ({ initState 0 with
        previous_message := ⟨(initState 0).nextId + 1,
          diagOf (PyError.connectionError "urllib3 connection aborted")⟩,
        nextId := (initState 0).nextId + 2 } : LoopState).timestamp =
      (initState 0).timestamp :=
  send_error_propagates_to_catch_all (initState 0) sendCrashInput scenario1Msg
    (PyError.connectionError "urllib3 connection aborted") (by decide) rfl rfl rfl

/-- Claim C1 counterexample: scenario 2's poll validates successfully with
an empty homeworks list — so the claim's condition "validated and had no
homeworks" holds and it asserts the cursor advances to the response's
current_date 1000 — yet the iteration leaves the cursor at from_date 0. -/
theorem cursor_claim_counterexample :
    check_response emptyHwBody = Except.ok (PyVal.list []) ∧
    pyGet emptyHwBody "current_date" = PyVal.int 1000 ∧
    (mainStep (initState 0) emptyHwInput).out = Except.ok
      { timestamp := PyVal.dict [("from_date", PyVal.int 0)],
        previous_message := ⟨0, ""⟩, nextId := 3 } ∧
    (initState 0).timestamp = PyVal.dict [("from_date", PyVal.int 0)] ∧
    (0 : Int) ≠ (1000 : Int) :=
  ⟨rfl, rfl, rfl, rfl, by decide⟩

/-- Claim C1 as amended: the cursor advances to the response's
current_date exactly when a status message was derived (fetch, validation
and extraction succeeded on a nonempty homeworks list) and its send
reported success; in every other case — a successful poll with no
homeworks included — the cursor is unchanged. -/
theorem cursor_advances_iff_notified (s : LoopState) (inp : StepInput) (s2 : LoopState)
    (hwf : s.previous_message.oid < s.nextId)
    (hout : (mainStep s inp).out = Except.ok s2) :
    s2.timestamp =
      (if cursorAdvanceCond inp = true then advancedTimestamp inp else s.timestamp) := by
  cases hf : get_api_answer inp.fetch with
  | error e =>
    have he : tryPhaseError inp = Option.some e := by
      unfold tryPhaseError
      rw [hf]
    have htb := tryBlock_of_phaseError s inp e he
    have hout2 : (exceptBlock s e inp.sendDiag).2 = Except.ok s2 := by
      unfold mainStep at hout
      rw [htb] at hout
      exact hout
    have hts := exceptBlock_preserves_timestamp s e inp.sendDiag s2 hout2
    have hcond : cursorAdvanceCond inp = false := by
      unfold cursorAdvanceCond derivedStatusMessage
      rw [hf]
    simp [hcond, hts]
  | ok response =>
    cases hc : check_response response with
    | error e =>
      have he : tryPhaseError inp = Option.some e := by
        unfold tryPhaseError
        rw [hf]
        simp [hc]
      have htb := tryBlock_of_phaseError s inp e he
      have hout2 : (exceptBlock s e inp.sendDiag).2 = Except.ok s2 := by
        unfold mainStep at hout
        rw [htb] at hout
        exact hout
      have hts := exceptBlock_preserves_timestamp s e inp.sendDiag s2 hout2
      have hcond : cursorAdvanceCond inp = false := by
        unfold cursorAdvanceCond derivedStatusMessage
        rw [hf]
        simp [hc]
      simp [hcond, hts]
    | ok homeworks =>
      cases ht : pyTruthy homeworks with
      | false =>
        have htb : tryBlock s inp = Except.ok
            ({ s with nextId := s.nextId + 2 }, [Event.logDebug "Status not updated"]) := by
          unfold tryBlock
          rw [hf]
          simp [hc, ht]
        have h2 : (Except.ok ({ s with nextId := s.nextId + 2 }) :
            Except PyError LoopState) = Except.ok s2 := by
          unfold mainStep at hout
          rw [htb] at hout
          exact hout
        injection h2 with h3
        have hcond : cursorAdvanceCond inp = false := by
          unfold cursorAdvanceCond derivedStatusMessage
          rw [hf]
          simp [hc, ht]
        rw [← h3]
        simp [hcond]
      | true =>
        cases hp : parse_status (pyIndex0 homeworks) with
        | error e =>
          have he : tryPhaseError inp = Option.some e := by
            unfold tryPhaseError
            rw [hf]
            simp [hc, ht, hp]
          have htb := tryBlock_of_phaseError s inp e he
          have hout2 : (exceptBlock s e inp.sendDiag).2 = Except.ok s2 := by
            unfold mainStep at hout
            rw [htb] at hout
            exact hout
          have hts := exceptBlock_preserves_timestamp s e inp.sendDiag s2 hout2
          have hcond : cursorAdvanceCond inp = false := by
            unfold cursorAdvanceCond derivedStatusMessage
            rw [hf]
            simp [hc, ht, hp]
          simp [hcond, hts]
        | ok m =>
          have hm : derivedStatusMessage inp = Option.some m := by
            unfold derivedStatusMessage
            rw [hf]
            simp [hc, ht, hp]
          have h := tryBlock_derived s inp m hwf hm
          cases hr : (send_message inp.sendStatus m).2 with
          | error ex =>
            rw [hr] at h
            have htb : tryBlock s inp =
                Except.error (ex, (send_message inp.sendStatus m).1) := h
            have hout2 : (exceptBlock s ex inp.sendDiag).2 = Except.ok s2 := by
              unfold mainStep at hout
              rw [htb] at hout
              exact hout
            have hts := exceptBlock_preserves_timestamp s ex inp.sendDiag s2 hout2
            have hcond : cursorAdvanceCond inp = false := by
              unfold cursorAdvanceCond
              rw [hm]
              simp [reportsSuccess, hr]
            simp [hcond, hts]
          | ok b =>
            cases b with
            | false =>
              rw [hr] at h
              have htb : tryBlock s inp = Except.ok
                  ({ s with nextId := s.nextId + 2 },
                   (send_message inp.sendStatus m).1) := h
              have h2 : (Except.ok ({ s with nextId := s.nextId + 2 }) :
                  Except PyError LoopState) = Except.ok s2 := by
                unfold mainStep at hout
                rw [htb] at hout
                exact hout
              injection h2 with h3
              have hcond : cursorAdvanceCond inp = false := by
                unfold cursorAdvanceCond
                rw [hm]
                simp [reportsSuccess, hr]
              rw [← h3]
              simp [hcond]
            | true =>
              rw [hr] at h
              have htb : tryBlock s inp = Except.ok
                  ({ timestamp := advancedTimestamp inp,
                     previous_message := ⟨s.nextId, m⟩, nextId := s.nextId + 2 },
                   (send_message inp.sendStatus m).1) := h
              have h2 : (Except.ok ({ timestamp := advancedTimestamp inp,
                                      previous_message := ⟨s.nextId, m⟩,
                                      nextId := s.nextId + 2 } : LoopState) :
                  Except PyError LoopState) = Except.ok s2 := by
                unfold mainStep at hout
                rw [htb] at hout
                exact hout
              injection h2 with h3
              have hcond : cursorAdvanceCond inp = true := by
                unfold cursorAdvanceCond
                rw [hm]
                simp [reportsSuccess, hr]
              rw [← h3]
              simp [hcond]

/-- Witness for the amended C1: scenario 1 from start time 0 advances the
cursor to 1000. -/
theorem cursor_advances_iff_notified_witness :
    scenario1After.timestamp =
      (if cursorAdvanceCond scenario1Input = true then advancedTimestamp scenario1Input
       else (initState 0).timestamp) :=
  cursor_advances_iff_notified (initState 0) scenario1Input scenario1After (by decide) rfl

/-- Claim C2 (code-bug exhibit): two consecutive polls of a response with
no homeworks key derive the value-equal diagnostic; each iteration invokes
one bot send. The second, value-equal message is NOT suppressed — the
source compares object identity, and each iteration's f-string is a fresh
object — so two sends happen where the claim requires exactly one. -/
theorem duplicate_message_resent_not_suppressed :
    (mainStep (initState 0) diagInput).out = Except.ok diagAfter ∧
    diagAfter.previous_message.val = diagMsg ∧
    countBotSends (mainStep (initState 0) diagInput).events = 1 ∧
    (mainStep diagAfter diagInput).out = Except.ok
      { timestamp := PyVal.dict [("from_date", PyVal.int 0)],
        previous_message := ⟨4, diagMsg⟩, nextId := 5 } ∧
    countBotSends (mainStep diagAfter diagInput).events = 1 ∧
    (mainStep diagAfter diagInput).events =
      [Event.logError diagMsg, Event.botSend diagMsg,
       Event.logDebug "Bot sent message to Telegram", Event.sleepSec 600] :=
  ⟨rfl, rfl, rfl, rfl, rfl, rfl⟩

/-- Claim C3 (code-bug exhibit): with the Practicum token missing,
check_tokens is false and startup logs the critical fault, but the
SystemExit constructed on src/homework.py line 122 is never raised, so
execution still enters the polling loop instead of halting. -/
theorem startup_fault_logged_but_not_fatal :
    check_tokens envMissing = false ∧
    (mainStartup envMissing).events =
      [Event.logCritical "Required environment variables are missing"] ∧
    (mainStartup envMissing).entersLoop = true :=
  ⟨rfl, rfl, rfl⟩
